import Mathlib

/-!
Verification of the donny-crime-map dashboard's algorithmic core.

Shallow embedding conventions:
* JavaScript strings are modelled as `List Char`.
* `moment` timestamps are modelled on an integer month-index timeline
  (`monthIdx y m = 12 * y + (m - 1)`): `moment(month, 'YYYY-MM')` yields the
  start of that month, `add`/`subtract(1, 'month')` is `± 1`, and
  `isBetween(lo, hi, undefined, '[]')` is the inclusive interval test.
* `parseFloat` is modelled by `parseCoord`, returning the exact decimal value
  as a scaled integer (`DecNum`), or `none` for `NaN`.  The special values
  `Infinity`/`-Infinity`, which `parseFloat` can return, are mapped to `none`:
  in the source a record with such coordinates is dropped anyway, because the
  haversine comparison `NaN <= 0.25` is false.
* Floating-point trigonometry is idealised over `ℝ`.
-/

/-! ### Character classes and trimming (JS `String.trim`, regex `\s`, `\w`) -/

/-- JSON whitespace (`JSON.parse` skips exactly space, tab, LF, CR). -/
def isJsonWs (c : Char) : Bool :=
  c = ' ' || c = '\t' || c = '\n' || c = '\r'

/-- The JS WhiteSpace/LineTerminator class used by `String.prototype.trim`
and by the regex class `\s`. -/
def isJsWs (c : Char) : Bool :=
  c = ' ' || c = '\t' || c = '\n' || c = '\r' ||
  c = Char.ofNat 11 || c = Char.ofNat 12 ||
  c = Char.ofNat 160 || c = Char.ofNat 0x1680 ||
  (0x2000 ≤ c.toNat && c.toNat ≤ 0x200A) ||
  c = Char.ofNat 0x2028 || c = Char.ofNat 0x2029 || c = Char.ofNat 0x202F ||
  c = Char.ofNat 0x205F || c = Char.ofNat 0xFEFF

/-- The JS regex class `\w`. -/
def isWordChar (c : Char) : Bool :=
  c.isAlphanum || c = '_'

def ltrimJs (l : List Char) : List Char := l.dropWhile isJsWs

def rtrimJs (l : List Char) : List Char := (l.reverse.dropWhile isJsWs).reverse

/-- Model of `String.prototype.trim`. -/
def jsTrim (l : List Char) : List Char := rtrimJs (ltrimJs l)

/-! ### `parseFloat` model -/

/-- An exact decimal number: value `mant / 10 ^ scale`. -/
structure DecNum where
  mant : ℤ
  scale : Nat
  deriving DecidableEq, Repr

noncomputable def decToReal (d : DecNum) : ℝ := (d.mant : ℝ) / 10 ^ d.scale

def digitsVal (l : List Char) : Nat := l.foldl (fun n c => n * 10 + (c.toNat - 48)) 0

/-- Exponent suffix of a JS decimal literal (`e`/`E`, optional sign, digits);
an incomplete exponent contributes nothing, as in `parseFloat("1e")`. -/
def expVal (l : List Char) : ℤ :=
  match l with
  | c :: r =>
    if c = 'e' ∨ c = 'E' then
      match r with
      | '-' :: r2 =>
        let ds := r2.takeWhile Char.isDigit
        if ds.isEmpty then 0 else -(digitsVal ds : ℤ)
      | '+' :: r2 =>
        let ds := r2.takeWhile Char.isDigit
        if ds.isEmpty then 0 else (digitsVal ds : ℤ)
      | _ =>
        let ds := r.takeWhile Char.isDigit
        if ds.isEmpty then 0 else (digitsVal ds : ℤ)
    else 0
  | [] => 0

/-- Model of JS `parseFloat` on the decimal grammar: leading whitespace,
optional sign, digits with optional fraction, optional exponent, trailing
garbage ignored; `none` models `NaN` (no digit parsed). -/
def parseCoord (l : List Char) : Option DecNum :=
  let l1 := l.dropWhile isJsWs
  let p : ℤ × List Char :=
    match l1 with
    | '-' :: r => (-1, r)
    | '+' :: r => (1, r)
    | _ => (1, l1)
  let ip := p.2.takeWhile Char.isDigit
  let l3 := p.2.dropWhile Char.isDigit
  let q : List Char × List Char :=
    match l3 with
    | '.' :: r => (r.takeWhile Char.isDigit, r.dropWhile Char.isDigit)
    | _ => ([], l3)
  if ip.isEmpty && q.1.isEmpty then none
  else
    let mant : ℤ := p.1 * (digitsVal (ip ++ q.1) : ℤ)
    let e : ℤ := expVal q.2
    if 0 ≤ e then some ⟨mant * 10 ^ e.toNat, q.1.length⟩
    else some ⟨mant, q.1.length + e.natAbs⟩

/-! ### Data model (`types.ts` shapes, restricted to the fields the filters use) -/

structure Location where
  latitude : List Char
  longitude : List Char
  street : Option (List Char)
  deriving DecidableEq, Repr

structure Crime where
  category : List Char
  month : ℤ
  location : Option Location
  deriving DecidableEq, Repr

structure StopSearch where
  datetime : ℤ
  sstype : List Char
  object_of_search : List Char
  location : Option Location
  deriving DecidableEq, Repr

/-- Month index of the calendar month `y`-`m` (`m` is 1-based). -/
def monthIdx (y m : ℤ) : ℤ := 12 * y + (m - 1)

/-- The coordinate guard of the proximity filters: the source first requires
`location?.latitude` and `location?.longitude` to be truthy (present and
non-empty), then parses both and rejects `NaN`. -/
def coordsOf (loc : Option Location) : Option (DecNum × DecNum) :=
  match loc with
  | none => none
  | some l =>
    if l.latitude = [] ∨ l.longitude = [] then none
    else
      match parseCoord l.latitude, parseCoord l.longitude with
      | some a, some b => some (a, b)
      | _, _ => none

/-! ### Haversine distance (`geminiService.ts` lines 31-38) -/

open Real in
/-- Model of JS `Math.atan2`. -/
noncomputable def atan2 (y x : ℝ) : ℝ :=
  if 0 < x then arctan (y / x)
  else if x < 0 then (if 0 ≤ y then arctan (y / x) + π else arctan (y / x) - π)
  else if 0 < y then π / 2
  else if y < 0 then -(π / 2)
  else 0

open Real in
/-- The intermediate `a` of `haversineDistance`. -/
noncomputable def havA (lat1 lon1 lat2 lon2 : ℝ) : ℝ :=
  sin ((lat2 - lat1) * π / 180 / 2) * sin ((lat2 - lat1) * π / 180 / 2) +
    cos (lat1 * π / 180) * cos (lat2 * π / 180) *
      sin ((lon2 - lon1) * π / 180 / 2) * sin ((lon2 - lon1) * π / 180 / 2)

open Real in
noncomputable def haversineDistance (lat1 lon1 lat2 lon2 : ℝ) : ℝ :=
  let R : ℝ := 6371
  let a := havA lat1 lon1 lat2 lon2
  let c := 2 * atan2 (Real.sqrt a) (Real.sqrt (1 - a))
  R * c

/-! ### The proximity filters (`generateIncidentBriefing` lines 58-85,
`generateStopSearchBriefing` lines 131-143; both crime filters are the same
code up to the reference time, so they share one model) -/

def crimeNearbyPred (refLat refLng : ℝ) (refTime : ℤ) (c : Crime) : Prop :=
  match coordsOf c.location with
  | none => False
  | some q =>
    haversineDistance refLat refLng (decToReal q.1) (decToReal q.2) ≤ 0.25 ∧
      refTime - 1 ≤ c.month ∧ c.month ≤ refTime + 1

def ssNearbyPred (refLat refLng : ℝ) (refTime : ℤ) (s : StopSearch) : Prop :=
  match coordsOf s.location with
  | none => False
  | some q =>
    haversineDistance refLat refLng (decToReal q.1) (decToReal q.2) ≤ 0.25 ∧
      refTime - 1 ≤ s.datetime ∧ s.datetime ≤ refTime + 1

noncomputable def nearbyCrimesFilter (refLat refLng : ℝ) (refTime : ℤ)
    (cs : List Crime) : List Crime :=
  cs.filter fun c => @decide (crimeNearbyPred refLat refLng refTime c) (Classical.propDecidable _)

noncomputable def nearbyStopSearchesFilter (refLat refLng : ℝ) (refTime : ℤ)
    (ss : List StopSearch) : List StopSearch :=
  ss.filter fun s => @decide (ssNearbyPred refLat refLng refTime s) (Classical.propDecidable _)

/-! ### Prompt-context summaries (`generateIncidentBriefing` lines 66-70 and
the `slice(0, 5)` truncation at lines 96-97) -/

/-- The global replacement of dashes by spaces applied to `category`. -/
def replaceDashes (l : List Char) : List Char :=
  l.map fun c => if c = '-' then ' ' else c

/-- `replace(/\b\w/g, l => l.toUpperCase())`: uppercase every word character
that starts a word (previous character absent or not a word character). -/
def titleCaseAux : Bool → List Char → List Char
  | _, [] => []
  | prevWord, c :: r =>
    (if isWordChar c && !prevWord then c.toUpper else c) :: titleCaseAux (isWordChar c) r

def titleCase (l : List Char) : List Char := titleCaseAux false l

def monthNames : List (List Char) :=
  ["January".data, "February".data, "March".data, "April".data, "May".data,
   "June".data, "July".data, "August".data, "September".data, "October".data,
   "November".data, "December".data]

/-- `moment(c.month).format('MMMM YYYY')` on the month-index timeline. -/
def formatMonthLabel (n : ℤ) : List Char :=
  (monthNames.getD (n.emod 12).toNat []) ++ ' ' :: Nat.toDigits 10 (n.ediv 12).toNat

structure CrimeSummary where
  ctype : List Char
  date : List Char
  street : List Char
  deriving DecidableEq, Repr

/-- The object built for each nearby crime before prompt insertion. -/
def summarizeCrime (c : Crime) : CrimeSummary :=
  { ctype := titleCase (replaceDashes c.category)
    date := formatMonthLabel c.month
    street :=
      match c.location with
      | some l => l.street.getD "Unknown Street".data
      | none => "Unknown Street".data }

noncomputable def nearbyCrimes (refLat refLng : ℝ) (refTime : ℤ)
    (cs : List Crime) : List CrimeSummary :=
  (nearbyCrimesFilter refLat refLng refTime cs).map summarizeCrime

/-- `nearbyCrimes.slice(0, 5)` as used when building the prompt. -/
noncomputable def promptCrimeSample (refLat refLng : ℝ) (refTime : ℤ)
    (cs : List Crime) : List CrimeSummary :=
  (nearbyCrimes refLat refLng refTime cs).take 5

/-! ### JSON value and parser (model of `JSON.parse`) -/

inductive Json where
  | null : Json
  | bool (b : Bool) : Json
  | num (mant : ℤ) (scale : Nat) (exp : ℤ) : Json
  | str (s : List Char) : Json
  | arr (elts : List Json) : Json
  | obj (mems : List (List Char × Json)) : Json

/-- Hex digit value, for `\u` escapes. -/
def hexVal (c : Char) : Nat :=
  if c.isDigit then c.toNat - 48
  else if 'a' ≤ c ∧ c ≤ 'f' then c.toNat - 87
  else if 'A' ≤ c ∧ c ≤ 'F' then c.toNat - 55
  else 0

def isHexDigit (c : Char) : Bool :=
  c.isDigit || ('a' ≤ c && c ≤ 'f') || ('A' ≤ c && c ≤ 'F')

/-- Body of a JSON string literal after the opening quote, with escapes;
returns the decoded characters and the input after the closing quote. -/
def parseStringBody : Nat → List Char → Option (List Char × List Char)
  | 0, _ => none
  | _ + 1, [] => none
  | fuel + 1, c :: r =>
    if c = '"' then some ([], r)
    else if c = '\\' then
      match r with
      | [] => none
      | e :: r2 =>
        if e = 'u' then
          match r2 with
          | h1 :: h2 :: h3 :: h4 :: r3 =>
            if isHexDigit h1 && isHexDigit h2 && isHexDigit h3 && isHexDigit h4 then
              (parseStringBody fuel r3).map fun p =>
                (Char.ofNat (((hexVal h1 * 16 + hexVal h2) * 16 + hexVal h3) * 16 + hexVal h4)
                  :: p.1, p.2)
            else none
          | _ => none
        else
          match
            (if e = '"' then some '"'
             else if e = '\\' then some '\\'
             else if e = '/' then some '/'
             else if e = 'b' then some (Char.ofNat 8)
             else if e = 'f' then some (Char.ofNat 12)
             else if e = 'n' then some '\n'
             else if e = 'r' then some '\r'
             else if e = 't' then some '\t'
             else none) with
          | some d => (parseStringBody fuel r2).map fun p => (d :: p.1, p.2)
          | none => none
    else if c.toNat < 0x20 then none
    else (parseStringBody fuel r).map fun p => (c :: p.1, p.2)

/-- JSON number literal: `-? (0 | [1-9][0-9]*) (. [0-9]+)? ([eE][+-]?[0-9]+)?`.
Returns (mantissa, fraction scale, exponent) and the rest. -/
def parseNumber (l : List Char) : Option ((ℤ × Nat × ℤ) × List Char) :=
  let p : ℤ × List Char := match l with | '-' :: r => (-1, r) | _ => (1, l)
  match p.2 with
  | [] => none
  | c :: _ =>
    if ¬ c.isDigit then none
    else
      let ip := if c = '0' then ['0'] else p.2.takeWhile Char.isDigit
      let l2 := p.2.drop ip.length
      let q : List Char × List Char × Bool :=
        match l2 with
        | '.' :: r =>
          let fp := r.takeWhile Char.isDigit
          (fp, r.dropWhile Char.isDigit, fp.isEmpty)
        | _ => ([], l2, false)
      if q.2.2 then none
      else
        let l3 := q.2.1
        match l3 with
        | e :: r =>
          if e = 'e' ∨ e = 'E' then
            let s : ℤ × List Char :=
              match r with
              | '-' :: r2 => (-1, r2)
              | '+' :: r2 => (1, r2)
              | _ => (1, r)
            let ds := s.2.takeWhile Char.isDigit
            if ds.isEmpty then none
            else
              some ((p.1 * (digitsVal (ip ++ q.1) : ℤ), q.1.length,
                      s.1 * (digitsVal ds : ℤ)), s.2.dropWhile Char.isDigit)
          else some ((p.1 * (digitsVal (ip ++ q.1) : ℤ), q.1.length, 0), l3)
        | [] => some ((p.1 * (digitsVal (ip ++ q.1) : ℤ), q.1.length, 0), [])

/-- Array elements after the opening bracket and leading whitespace:
either an immediate `]`, or values separated by `,`. -/
def parseElemsAux (pv : List Char → Option (Json × List Char)) :
    Nat → List Char → Option (List Json × List Char)
  | 0, _ => none
  | fuel + 1, l =>
    match l with
    | ']' :: r => some ([], r)
    | _ =>
      match pv l with
      | none => none
      | some (v, r1) =>
        match r1.dropWhile isJsonWs with
        | ',' :: r2 =>
          match parseElemsAux pv fuel (r2.dropWhile isJsonWs) with
          | some (vs, r3) => some (v :: vs, r3)
          | none => none
        | ']' :: r2 => some ([v], r2)
        | _ => none

/-- Object members after the opening brace and leading whitespace. -/
def parseMembersAux (pv : List Char → Option (Json × List Char)) :
    Nat → List Char → Option (List (List Char × Json) × List Char)
  | 0, _ => none
  | fuel + 1, l =>
    match l with
    | '}' :: r => some ([], r)
    | '"' :: r =>
      match parseStringBody (r.length + 1) r with
      | none => none
      | some (k, r1) =>
        match r1.dropWhile isJsonWs with
        | ':' :: r2 =>
          match pv (r2.dropWhile isJsonWs) with
          | none => none
          | some (v, r3) =>
            match r3.dropWhile isJsonWs with
            | ',' :: r4 =>
              match
                (match r4.dropWhile isJsonWs with
                 | '}' :: _ => none
                 | l5 => parseMembersAux pv fuel l5) with
              | some (ms, r5) => some ((k, v) :: ms, r5)
              | none => none
            | '}' :: r4 => some ([(k, v)], r4)
            | _ => none
        | _ => none
    | _ => none

/-- One JSON value starting at the head of the input (no leading whitespace);
returns the value and the unconsumed rest. -/
def parseValue : Nat → List Char → Option (Json × List Char)
  | 0, _ => none
  | _ + 1, [] => none
  | fuel + 1, c :: r =>
    if c = '[' then
      (parseElemsAux (parseValue fuel) (r.length + 1) (r.dropWhile isJsonWs)).map
        fun p => (Json.arr p.1, p.2)
    else if c = '{' then
      (parseMembersAux (parseValue fuel) (r.length + 1) (r.dropWhile isJsonWs)).map
        fun p => (Json.obj p.1, p.2)
    else if c = '"' then
      (parseStringBody (r.length + 1) r).map fun p => (Json.str p.1, p.2)
    else if c = 't' then
      match r with
      | 'r' :: 'u' :: 'e' :: r2 => some (Json.bool true, r2)
      | _ => none
    else if c = 'f' then
      match r with
      | 'a' :: 'l' :: 's' :: 'e' :: r2 => some (Json.bool false, r2)
      | _ => none
    else if c = 'n' then
      match r with
      | 'u' :: 'l' :: 'l' :: r2 => some (Json.null, r2)
      | _ => none
    else if c = '-' ∨ c.isDigit then
      (parseNumber (c :: r)).map fun p => (Json.num p.1.1 p.1.2.1 p.1.2.2, p.2)
    else none

/-- Model of `JSON.parse`: skip whitespace, one value, trailing whitespace only. -/
def jsonParse (l : List Char) : Option Json :=
  match parseValue (l.length + 1) (l.dropWhile isJsonWs) with
  | some (v, r) => if r.dropWhile isJsonWs = [] then some v else none
  | none => none

/-! ### `parseJsonResponse` (`geminiService.ts` lines 16-29) -/

/-- The effect of matching the code-fence regex
`^BTBTBT(\w*)?\s*\n?(.*?)\n?\s*BTBTBT$` (`BT` = backtick, `s` flag) against the
trimmed text and extracting group 2.  The regex matches exactly when the text
starts and ends with a triple backtick and is at least 6 characters long (the
lazy middle group absorbs anything else); group 2 is then the middle stripped
of the greedy leading word-run (the language tag), the leading whitespace run
and the trailing whitespace run.  `none` models both a failed match and a
falsy (empty) group 2, the two cases in which the source keeps the whole
trimmed text. -/
def fenceContent (t : List Char) : Option (List Char) :=
  if 6 ≤ t.length ∧ t.take 3 = "```".data ∧ t.drop (t.length - 3) = "```".data then
    let u := (t.drop 3).take (t.length - 6)
    let m := rtrimJs ((u.dropWhile isWordChar).dropWhile isJsWs)
    if m = [] then none else some m
  else none

/-- The `jsonStr` value handed to `JSON.parse`: the trimmed text, with a code
fence stripped (and the extracted group trimmed again) when the regex matched
with a non-empty group 2. -/
def jsonStrOf (text : List Char) : List Char :=
  let t := jsTrim text
  match fenceContent t with
  | some m => jsTrim m
  | none => t

def parseFailMsg : List Char := "Failed to parse AI response as JSON.".data

/-- `parseJsonResponse`: parse the fence-stripped trimmed text; a `JSON.parse`
exception is re-thrown as `Error("Failed to parse AI response as JSON.")`. -/
def parseJsonResponse (text : List Char) : Except (List Char) Json :=
  match jsonParse (jsonStrOf text) with
  | some v => Except.ok v
  | none => Except.error parseFailMsg

/-- A markdown code fence around `s` with language tag `tag`. -/
def fenceWrap (tag s : List Char) : List Char :=
  "```".data ++ tag ++ '\n' :: s ++ "\n```".data

/-! ### Modal state machine (`App.tsx` lines 25-51, identical in both copies
of the app component) -/

inductive ModalKey where
  | briefing | trend | insights | predictive
  deriving DecidableEq, Repr

structure ModalState where
  briefing : Bool
  trend : Bool
  insights : Bool
  predictive : Bool
  deriving DecidableEq, Repr

/-- `initialModalState.modal`: all four flags false. -/
def initialModal : ModalState :=
  { briefing := false, trend := false, insights := false, predictive := false }

/-- The spread `{ ...initialModalState.modal, [action.payload.modal]: true }`. -/
def openedModal : ModalKey → ModalState
  | .briefing => { initialModal with briefing := true }
  | .trend => { initialModal with trend := true }
  | .insights => { initialModal with insights := true }
  | .predictive => { initialModal with predictive := true }

/-- Modal content: the initial `''`, plain rendered text, or the red error
`div` produced by `handleAIFeature` on failure. -/
inductive Content where
  | text (s : List Char)
  | errorBox (s : List Char)
  deriving DecidableEq, Repr

structure ModalFull where
  modal : ModalState
  content : Content
  isLoading : Bool
  deriving DecidableEq, Repr

def initialModalState : ModalFull :=
  { modal := initialModal, content := .text [], isLoading := false }

inductive ModalAction where
  | openModal (k : ModalKey) (content : Option Content)
  | closeModal
  | setLoading (b : Bool)
  | setContent (c : Content)

def modalReducer (state : ModalFull) (action : ModalAction) : ModalFull :=
  match action with
  | .openModal k c =>
    { state with modal := openedModal k, isLoading := true, content := c.getD (.text []) }
  | .closeModal => { state with modal := initialModal }
  | .setLoading b => { state with isLoading := b }
  | .setContent c => { state with content := c, isLoading := false }

/-- States reachable from the initial modal state. -/
def runModal (acts : List ModalAction) : ModalFull :=
  acts.foldl modalReducer initialModalState

/-- Number of open modal flags. -/
def flagCount (m : ModalState) : Nat :=
  (cond m.briefing 1 0) + (cond m.trend 1 0) + (cond m.insights 1 0) +
    (cond m.predictive 1 0)

/-- `handleAIFeature` (`App.tsx` lines 147-160): dispatch OPEN_MODAL, await
the single `apiCall()` (its settled outcome is the `result` argument; no
retry dispatch exists), then dispatch SET_CONTENT with either the rendered
success or the error message in a red box. -/
def handleAIFeature {β : Type} (k : ModalKey) (result : Except (List Char) β)
    (onSuccess : β → Content) (st : ModalFull) : ModalFull :=
  let st1 := modalReducer st (.openModal k none)
  modalReducer st1 (.setContent
    (match result with
     | .ok b => onSuccess b
     | .error e => .errorBox e))

/-! ### Service entry points (`geminiService.ts`).  The LLM response text is
a parameter (`llmText`); the second component records whether the LLM request
was issued. -/

/-- `API_KEY ? new GoogleGenAI(...) : null`: the client exists iff the key is
present and non-empty (JS truthiness). -/
def aiConfigured (apiKey : Option (List Char)) : Bool :=
  match apiKey with
  | some (_ :: _) => true
  | _ => false

def keyMissingMsg : List Char := "AI service is not available (API key missing).".data

/-- `generateIncidentBriefing` (lines 40-111), up to the returned text: the
missing-key guard, the main-incident coordinate parse guard (a missing
`location` would make the destructured access throw, modelled as `.error`),
then the LLM round trip. -/
def generateIncidentBriefing (apiKey : Option (List Char)) (crime : Crime)
    (allCrimes : List Crime) (allStopSearches : List StopSearch)
    (llmText : List Char) : Except (List Char) (List Char) × Bool :=
  if aiConfigured apiKey = false then (.ok keyMissingMsg, false)
  else
    match crime.location with
    | none => (.error "TypeError".data, false)
    | some loc =>
      match parseCoord loc.latitude, parseCoord loc.longitude with
      | some _, some _ => (.ok llmText, true)
      | _, _ => (.ok "Briefing not available due to invalid location data.".data, false)

/-- `generateStopSearchBriefing` (lines 113-169), up to the returned text. -/
def generateStopSearchBriefing (apiKey : Option (List Char)) (stopSearch : StopSearch)
    (allCrimes : List Crime) (allStopSearches : List StopSearch)
    (llmText : List Char) : Except (List Char) (List Char) × Bool :=
  if aiConfigured apiKey = false then (.ok keyMissingMsg, false)
  else
    match stopSearch.location with
    | none => (.ok "Briefing not available: no location data for this incident.".data, false)
    | some loc =>
      match parseCoord loc.latitude, parseCoord loc.longitude with
      | some _, some _ => (.ok llmText, true)
      | _, _ => (.ok "Briefing not available due to invalid location data.".data, false)

/-- `summarizeCrimeTrends` (lines 172-199). -/
def summarizeCrimeTrends (apiKey : Option (List Char)) (crimes : List Crime)
    (llmText : List Char) : Except (List Char) (List Char) × Bool :=
  if aiConfigured apiKey = false then (.ok keyMissingMsg, false)
  else if crimes = [] then (.ok "No crime data available to summarize.".data, false)
  else (.ok llmText, true)

/-- `generateCrimeInsights` (lines 201-229): guards return the empty array
without a request; otherwise the JSON response is parsed. -/
def generateCrimeInsights (apiKey : Option (List Char)) (crimes : List Crime)
    (llmText : List Char) : Except (List Char) Json × Bool :=
  if aiConfigured apiKey = false then (.ok (Json.arr []), false)
  else if crimes = [] then (.ok (Json.arr []), false)
  else (parseJsonResponse llmText, true)

/-- `generatePredictiveHotspots` (lines 232-270): guards return the empty
array without a request; otherwise the JSON response is parsed. -/
def generatePredictiveHotspots (apiKey : Option (List Char)) (crimes : List Crime)
    (llmText : List Char) : Except (List Char) Json × Bool :=
  if aiConfigured apiKey = false then (.ok (Json.arr []), false)
  else if crimes.length < 10 then (.ok (Json.arr []), false)
  else (parseJsonResponse llmText, true)

/-! ### Helper lemmas -/

lemma mem_nearbyCrimesFilter {refLat refLng : ℝ} {refTime : ℤ} {cs : List Crime}
    {c : Crime} :
    c ∈ nearbyCrimesFilter refLat refLng refTime cs ↔
      c ∈ cs ∧ crimeNearbyPred refLat refLng refTime c := by
  unfold nearbyCrimesFilter
  rw [List.mem_filter]
  constructor
  · rintro ⟨h1, h2⟩
    exact ⟨h1, @of_decide_eq_true _ (Classical.propDecidable _) h2⟩
  · rintro ⟨h1, h2⟩
    exact ⟨h1, @decide_eq_true _ (Classical.propDecidable _) h2⟩

lemma mem_nearbyStopSearchesFilter {refLat refLng : ℝ} {refTime : ℤ}
    {ls : List StopSearch} {s : StopSearch} :
    s ∈ nearbyStopSearchesFilter refLat refLng refTime ls ↔
      s ∈ ls ∧ ssNearbyPred refLat refLng refTime s := by
  unfold nearbyStopSearchesFilter
  rw [List.mem_filter]
  constructor
  · rintro ⟨h1, h2⟩
    exact ⟨h1, @of_decide_eq_true _ (Classical.propDecidable _) h2⟩
  · rintro ⟨h1, h2⟩
    exact ⟨h1, @decide_eq_true _ (Classical.propDecidable _) h2⟩

lemma haversine_self (lat lon : ℝ) : haversineDistance lat lon lat lon = 0 := by
  have h : havA lat lon lat lon = 0 := by
    simp [havA]
  rw [haversineDistance]
  simp only [h, Real.sqrt_zero, sub_zero, Real.sqrt_one]
  rw [atan2]
  simp [Real.arctan_zero]

/-! ### C10: modal reducer invariant -/

/-- C10: in every state reachable from the initial modal state via
`modalReducer` actions, at most one of the four modal flags is true;
`OPEN_MODAL` replaces the flags by the freshly opened set, `CLOSE_MODAL`
clears all flags, and `SET_LOADING`/`SET_CONTENT` leave the flags unchanged. -/
theorem modal_at_most_one_open :
    (∀ acts : List ModalAction, flagCount (runModal acts).modal ≤ 1) ∧
    (∀ st k c, (modalReducer st (.openModal k c)).modal = openedModal k) ∧
    (∀ st, (modalReducer st .closeModal).modal = initialModal) ∧
    (∀ st b, (modalReducer st (.setLoading b)).modal = st.modal) ∧
    (∀ st c, (modalReducer st (.setContent c)).modal = st.modal) := by
  refine ⟨?_, fun st k c => rfl, fun st => rfl, fun st b => rfl, fun st c => rfl⟩
  have step : ∀ (st : ModalFull) (a : ModalAction),
      flagCount st.modal ≤ 1 → flagCount (modalReducer st a).modal ≤ 1 := by
    intro st a h
    cases a with
    | openModal k c =>
      cases k <;> simp [modalReducer, openedModal, initialModal, flagCount]
    | closeModal => simp [modalReducer, initialModal, flagCount]
    | setLoading b => simpa [modalReducer] using h
    | setContent c => simpa [modalReducer] using h
  have inv : ∀ (acts : List ModalAction) (st : ModalFull), flagCount st.modal ≤ 1 →
      flagCount (acts.foldl modalReducer st).modal ≤ 1 := by
    intro acts
    induction acts with
    | nil => intro st h; simpa using h
    | cons a rest ih =>
      intro st h
      exact ih _ (step st a h)
  intro acts
  exact inv acts initialModalState (by simp [initialModalState, initialModal, flagCount])

/-! ### C7: missing API key degrades gracefully -/

/-- C7: when the API key is absent (or empty, hence falsy), every AI entry
point returns successfully with its static fallback value and issues no LLM
request; a missing credential is never a fatal error. -/
theorem missing_key_degrades_gracefully (apiKey : Option (List Char))
    (h : aiConfigured apiKey = false) :
    ∀ (crime : Crime) (ss : StopSearch) (cs : List Crime) (sss : List StopSearch)
      (llm : List Char),
      generateIncidentBriefing apiKey crime cs sss llm = (.ok keyMissingMsg, false) ∧
      generateStopSearchBriefing apiKey ss cs sss llm = (.ok keyMissingMsg, false) ∧
      summarizeCrimeTrends apiKey cs llm = (.ok keyMissingMsg, false) ∧
      generateCrimeInsights apiKey cs llm = (.ok (Json.arr []), false) ∧
      generatePredictiveHotspots apiKey cs llm = (.ok (Json.arr []), false) := by
  intro crime ss cs sss llm
  refine ⟨?_, ?_, ?_, ?_, ?_⟩ <;>
    simp [generateIncidentBriefing, generateStopSearchBriefing, summarizeCrimeTrends,
      generateCrimeInsights, generatePredictiveHotspots, h]

def sampleCrime : Crime :=
  { category := "burglary".data, month := monthIdx 2024 5, location := none }

def sampleStopSearch : StopSearch :=
  { datetime := monthIdx 2024 5, sstype := "Person search".data,
    object_of_search := "Controlled drugs".data, location := none }

/-- Witness for C7 at the concrete absent key. -/
theorem missing_key_degrades_gracefully_witness :
    generateIncidentBriefing none sampleCrime [] [] [] = (.ok keyMissingMsg, false) ∧
    generateStopSearchBriefing none sampleStopSearch [] [] [] = (.ok keyMissingMsg, false) ∧
    summarizeCrimeTrends none [] [] = (.ok keyMissingMsg, false) ∧
    generateCrimeInsights none [] [] = (.ok (Json.arr []), false) ∧
    generatePredictiveHotspots none [] [] = (.ok (Json.arr []), false) :=
  missing_key_degrades_gracefully none rfl sampleCrime sampleStopSearch [] [] []

/-! ### C9: small inputs return empty without an LLM request -/

/-- C9: `generatePredictiveHotspots` returns the empty array without issuing
an LLM request whenever fewer than 10 crimes are supplied, and
`generateCrimeInsights` does the same on an empty input list. -/
theorem small_inputs_skip_llm (apiKey : Option (List Char)) (cs : List Crime)
    (llm llm2 : List Char) (h : cs.length < 10) :
    generatePredictiveHotspots apiKey cs llm = (.ok (Json.arr []), false) ∧
    generateCrimeInsights apiKey [] llm2 = (.ok (Json.arr []), false) := by
  constructor
  · by_cases hk : aiConfigured apiKey = false <;>
      simp [generatePredictiveHotspots, hk, h]
  · by_cases hk : aiConfigured apiKey = false <;>
      simp [generateCrimeInsights, hk]

/-- Witness for C9: nine crimes with a configured key. -/
theorem small_inputs_skip_llm_witness :
    generatePredictiveHotspots (some "k".data) (List.replicate 9 sampleCrime) [] =
      (.ok (Json.arr []), false) ∧
    generateCrimeInsights (some "k".data) [] [] = (.ok (Json.arr []), false) :=
  small_inputs_skip_llm (some "k".data) (List.replicate 9 sampleCrime) [] []
    (by decide)

/-! ### C8: the filter preserves input order; the prompt truncates to 5 -/

/-- C8: the proximity filter imposes no ordering of its own: its result is a
sublist of the candidate list (so every pair of returned records keeps its
relative input order), and the prompt-building `slice(0, 5)` keeps at most
the first 5 summaries (a prefix of the summary list). -/
theorem filter_order_and_prompt_truncation (refLat refLng : ℝ) (refTime : ℤ)
    (cs : List Crime) (ls : List StopSearch) :
    (nearbyCrimesFilter refLat refLng refTime cs).Sublist cs ∧
    (nearbyStopSearchesFilter refLat refLng refTime ls).Sublist ls ∧
    (promptCrimeSample refLat refLng refTime cs).length ≤ 5 ∧
    promptCrimeSample refLat refLng refTime cs ++
        (nearbyCrimes refLat refLng refTime cs).drop 5 =
      nearbyCrimes refLat refLng refTime cs := by
  refine ⟨List.filter_sublist cs, List.filter_sublist ls, ?_, List.take_append_drop 5 _⟩
  simp [promptCrimeSample]

/-! ### C3: malformed coordinates are excluded, never defaulted -/

/-- C3: every record returned by a proximity filter has coordinates that pass
the parse guard, and any record whose coordinates are missing, empty or
unparsable is excluded (totally, with no error and no default substituted). -/
theorem malformed_coordinates_excluded (refLat refLng : ℝ) (refTime : ℤ) :
    (∀ (cs : List Crime) (c : Crime), c ∈ nearbyCrimesFilter refLat refLng refTime cs →
      ∃ q, coordsOf c.location = some q) ∧
    (∀ (cs : List Crime) (c : Crime), coordsOf c.location = none →
      c ∉ nearbyCrimesFilter refLat refLng refTime cs) ∧
    (∀ (ls : List StopSearch) (s : StopSearch),
      s ∈ nearbyStopSearchesFilter refLat refLng refTime ls →
      ∃ q, coordsOf s.location = some q) ∧
    (∀ (ls : List StopSearch) (s : StopSearch), coordsOf s.location = none →
      s ∉ nearbyStopSearchesFilter refLat refLng refTime ls) := by
  refine ⟨?_, ?_, ?_, ?_⟩
  · intro cs c hm
    have hp := (mem_nearbyCrimesFilter.mp hm).2
    unfold crimeNearbyPred at hp
    rcases hq : coordsOf c.location with _ | q
    · rw [hq] at hp; exact absurd hp not_false
    · exact ⟨q, rfl⟩
  · intro cs c h0 hm
    have hp := (mem_nearbyCrimesFilter.mp hm).2
    unfold crimeNearbyPred at hp
    rw [h0] at hp
    exact hp
  · intro ls s hm
    have hp := (mem_nearbyStopSearchesFilter.mp hm).2
    unfold ssNearbyPred at hp
    rcases hq : coordsOf s.location with _ | q
    · rw [hq] at hp; exact absurd hp not_false
    · exact ⟨q, rfl⟩
  · intro ls s h0 hm
    have hp := (mem_nearbyStopSearchesFilter.mp hm).2
    unfold ssNearbyPred at hp
    rw [h0] at hp
    exact hp

def badCoordCrime : Crime :=
  { category := "burglary".data, month := 0,
    location := some { latitude := "abc".data, longitude := "1.0".data, street := none } }

/-- Witness for C3: a record whose latitude does not parse is excluded. -/
theorem malformed_coordinates_excluded_witness :
    badCoordCrime ∉ nearbyCrimesFilter 0 0 0 [badCoordCrime] :=
  (malformed_coordinates_excluded 0 0 0).2.1 [badCoordCrime] badCoordCrime rfl

/-! ### C1: returned records are within the haversine radius -/

/-- C1: every record returned by `nearbyCrimes`/`nearbyStopSearches` has
parsed coordinates whose haversine distance from the reference point is at
most the 0.25 km radius. -/
theorem nearby_within_radius (refLat refLng : ℝ) (refTime : ℤ) :
    (∀ (cs : List Crime) (c : Crime), c ∈ nearbyCrimesFilter refLat refLng refTime cs →
      ∃ q, coordsOf c.location = some q ∧
        haversineDistance refLat refLng (decToReal q.1) (decToReal q.2) ≤ 0.25) ∧
    (∀ (ls : List StopSearch) (s : StopSearch),
      s ∈ nearbyStopSearchesFilter refLat refLng refTime ls →
      ∃ q, coordsOf s.location = some q ∧
        haversineDistance refLat refLng (decToReal q.1) (decToReal q.2) ≤ 0.25) := by
  constructor
  · intro cs c hm
    have hp := (mem_nearbyCrimesFilter.mp hm).2
    unfold crimeNearbyPred at hp
    rcases hq : coordsOf c.location with _ | q
    · rw [hq] at hp; exact absurd hp not_false
    · rw [hq] at hp; exact ⟨q, rfl, hp.1⟩
  · intro ls s hm
    have hp := (mem_nearbyStopSearchesFilter.mp hm).2
    unfold ssNearbyPred at hp
    rcases hq : coordsOf s.location with _ | q
    · rw [hq] at hp; exact absurd hp not_false
    · rw [hq] at hp; exact ⟨q, rfl, hp.1⟩

def refLatDec : DecNum := ⟨535228, 4⟩
def refLngDec : DecNum := ⟨-11285, 4⟩

def selfLocation : Location :=
  { latitude := "53.5228".data, longitude := "-1.1285".data, street := none }

def selfCrime : Crime :=
  { category := "burglary".data, month := monthIdx 2024 5, location := some selfLocation }

lemma coordsOf_selfLocation : coordsOf (some selfLocation) = some (refLatDec, refLngDec) := by
  decide

lemma selfCrime_mem :
    selfCrime ∈ nearbyCrimesFilter (decToReal refLatDec) (decToReal refLngDec)
      (monthIdx 2024 5) [selfCrime] := by
  refine mem_nearbyCrimesFilter.mpr ⟨List.mem_singleton.mpr rfl, ?_⟩
  unfold crimeNearbyPred
  rw [show selfCrime.location = some selfLocation from rfl, coordsOf_selfLocation]
  refine ⟨?_, by decide, by decide⟩
  rw [haversine_self]
  norm_num

/-- Witness for C1: a candidate at the reference point itself is returned,
and the theorem bounds its distance by the radius. -/
theorem nearby_within_radius_witness :
    ∃ q, coordsOf selfCrime.location = some q ∧
      haversineDistance (decToReal refLatDec) (decToReal refLngDec)
        (decToReal q.1) (decToReal q.2) ≤ 0.25 :=
  (nearby_within_radius (decToReal refLatDec) (decToReal refLngDec)
    (monthIdx 2024 5)).1 [selfCrime] selfCrime selfCrime_mem

/-! ### C2: returned records are within the inclusive time window -/

/-- C2: every record returned by the proximity filters has its timestamp in
the closed interval [reference time − 1 month, reference time + 1 month]. -/
theorem nearby_within_time_window (refLat refLng : ℝ) (refTime : ℤ) :
    (∀ (cs : List Crime) (c : Crime), c ∈ nearbyCrimesFilter refLat refLng refTime cs →
      refTime - 1 ≤ c.month ∧ c.month ≤ refTime + 1) ∧
    (∀ (ls : List StopSearch) (s : StopSearch),
      s ∈ nearbyStopSearchesFilter refLat refLng refTime ls →
      refTime - 1 ≤ s.datetime ∧ s.datetime ≤ refTime + 1) := by
  constructor
  · intro cs c hm
    have hp := (mem_nearbyCrimesFilter.mp hm).2
    unfold crimeNearbyPred at hp
    rcases hq : coordsOf c.location with _ | q
    · rw [hq] at hp; exact absurd hp not_false
    · rw [hq] at hp; exact hp.2
  · intro ls s hm
    have hp := (mem_nearbyStopSearchesFilter.mp hm).2
    unfold ssNearbyPred at hp
    rcases hq : coordsOf s.location with _ | q
    · rw [hq] at hp; exact absurd hp not_false
    · rw [hq] at hp; exact hp.2

def nextMonthCrime : Crime :=
  { category := "burglary".data, month := monthIdx 2024 6, location := some selfLocation }

lemma nextMonthCrime_mem :
    nextMonthCrime ∈ nearbyCrimesFilter (decToReal refLatDec) (decToReal refLngDec)
      (monthIdx 2024 5) [nextMonthCrime] := by
  refine mem_nearbyCrimesFilter.mpr ⟨List.mem_singleton.mpr rfl, ?_⟩
  unfold crimeNearbyPred
  rw [show nextMonthCrime.location = some selfLocation from rfl, coordsOf_selfLocation]
  refine ⟨?_, by decide, by decide⟩
  rw [haversine_self]
  norm_num

/-- Witness for C2: a returned record dated one month after the reference is
inside the inclusive window. -/
theorem nearby_within_time_window_witness :
    monthIdx 2024 5 - 1 ≤ nextMonthCrime.month ∧
      nextMonthCrime.month ≤ monthIdx 2024 5 + 1 :=
  (nearby_within_time_window (decToReal refLatDec) (decToReal refLngDec)
    (monthIdx 2024 5)).1 [nextMonthCrime] nextMonthCrime nextMonthCrime_mem

/-! ### Numeric bounds on the haversine distance, for the concrete example -/

lemma arctan_le_self {x : ℝ} (h : 0 ≤ x) : Real.arctan x ≤ x := by
  have h0 : 0 ≤ Real.arctan x := by
    have := Real.arctan_strictMono.monotone h
    rwa [Real.arctan_zero] at this
  have h2 := Real.arctan_lt_pi_div_two x
  have h3 := Real.le_tan h0 h2
  rwa [Real.tan_arctan] at h3

lemma le_arctan_two_thirds {u : ℝ} (h0 : 0 ≤ u) (h1 : u ≤ 1) :
    u / (3 / 2) ≤ Real.arctan u := by
  have hs : Real.sin (Real.arctan u) = u / Real.sqrt (1 + u ^ 2) := Real.sin_arctan u
  have ha0 : 0 ≤ Real.arctan u := by
    have := Real.arctan_strictMono.monotone h0
    rwa [Real.arctan_zero] at this
  have hsin := Real.sin_le ha0
  rw [hs] at hsin
  have hden : Real.sqrt (1 + u ^ 2) ≤ 3 / 2 := by
    have h2 : (1 : ℝ) + u ^ 2 ≤ (3 / 2) ^ 2 := by nlinarith
    calc Real.sqrt (1 + u ^ 2) ≤ Real.sqrt ((3 / 2) ^ 2) := Real.sqrt_le_sqrt h2
    _ = 3 / 2 := Real.sqrt_sq (by norm_num)
  have hdenpos : (0 : ℝ) < Real.sqrt (1 + u ^ 2) := by
    rw [Real.sqrt_pos]; positivity
  have : u / (3 / 2) ≤ u / Real.sqrt (1 + u ^ 2) := by
    gcongr
  linarith

lemma sin_mul_self_le_sq (a : ℝ) : Real.sin a * Real.sin a ≤ a ^ 2 := by
  have h := Real.abs_sin_le_abs (x := a)
  calc Real.sin a * Real.sin a = |Real.sin a| * |Real.sin a| := (abs_mul_abs_self _).symm
  _ ≤ |a| * |a| := by
      exact mul_le_mul h h (abs_nonneg _) (abs_nonneg _)
  _ = a ^ 2 := by rw [abs_mul_abs_self, sq]

lemma cos_deg_pos {lat : ℝ} (h : |lat| ≤ 60) : 0 < Real.cos (lat * Real.pi / 180) := by
  have hπ := Real.pi_pos
  have hl := abs_le.mp h
  have h1 : (0:ℝ) ≤ (lat + 60) * Real.pi := mul_nonneg (by linarith) hπ.le
  have h2 : (0:ℝ) ≤ (60 - lat) * Real.pi := mul_nonneg (by linarith) hπ.le
  apply Real.cos_pos_of_mem_Ioo
  constructor
  · nlinarith
  · nlinarith

lemma havA_nonneg (lat1 lon1 lat2 lon2 : ℝ)
    (h1 : 0 < Real.cos (lat1 * Real.pi / 180)) (h2 : 0 < Real.cos (lat2 * Real.pi / 180)) :
    0 ≤ havA lat1 lon1 lat2 lon2 := by
  unfold havA
  have s1 := mul_self_nonneg (Real.sin ((lat2 - lat1) * Real.pi / 180 / 2))
  have s2 := mul_self_nonneg (Real.sin ((lon2 - lon1) * Real.pi / 180 / 2))
  nlinarith [mul_pos h1 h2]

lemma havA_ge_latpart (lat1 lon1 lat2 lon2 : ℝ)
    (h1 : 0 < Real.cos (lat1 * Real.pi / 180)) (h2 : 0 < Real.cos (lat2 * Real.pi / 180)) :
    Real.sin ((lat2 - lat1) * Real.pi / 180 / 2) * Real.sin ((lat2 - lat1) * Real.pi / 180 / 2) ≤
      havA lat1 lon1 lat2 lon2 := by
  unfold havA
  have s2 := mul_self_nonneg (Real.sin ((lon2 - lon1) * Real.pi / 180 / 2))
  nlinarith [mul_pos h1 h2]

lemma havA_le_sq_sum (lat1 lon1 lat2 lon2 : ℝ) :
    havA lat1 lon1 lat2 lon2 ≤
      ((lat2 - lat1) * Real.pi / 180 / 2) ^ 2 + ((lon2 - lon1) * Real.pi / 180 / 2) ^ 2 := by
  unfold havA
  have hs1 := sin_mul_self_le_sq ((lat2 - lat1) * Real.pi / 180 / 2)
  have hs2 := sin_mul_self_le_sq ((lon2 - lon1) * Real.pi / 180 / 2)
  have hss := mul_self_nonneg (Real.sin ((lon2 - lon1) * Real.pi / 180 / 2))
  have hcc : Real.cos (lat1 * Real.pi / 180) * Real.cos (lat2 * Real.pi / 180) ≤ 1 := by
    calc Real.cos (lat1 * Real.pi / 180) * Real.cos (lat2 * Real.pi / 180) ≤
        |Real.cos (lat1 * Real.pi / 180) * Real.cos (lat2 * Real.pi / 180)| := le_abs_self _
    _ = |Real.cos (lat1 * Real.pi / 180)| * |Real.cos (lat2 * Real.pi / 180)| := abs_mul _ _
    _ ≤ 1 := mul_le_one₀ (Real.abs_cos_le_one _) (abs_nonneg _) (Real.abs_cos_le_one _)
  nlinarith [mul_le_mul_of_nonneg_right hcc hss]

lemma haversine_le_quarter (lat1 lon1 lat2 lon2 : ℝ)
    (h0 : 0 ≤ havA lat1 lon1 lat2 lon2)
    (hA : havA lat1 lon1 lat2 lon2 ≤ (2 / 10 ^ 6) ^ 2) :
    haversineDistance lat1 lon1 lat2 lon2 ≤ 0.25 := by
  have key : haversineDistance lat1 lon1 lat2 lon2 =
      6371 * (2 * atan2 (Real.sqrt (havA lat1 lon1 lat2 lon2))
        (Real.sqrt (1 - havA lat1 lon1 lat2 lon2))) := rfl
  have hxpos : 0 < Real.sqrt (1 - havA lat1 lon1 lat2 lon2) := by
    rw [Real.sqrt_pos]; nlinarith
  have hy : Real.sqrt (havA lat1 lon1 lat2 lon2) ≤ 2 / 10 ^ 6 := by
    calc Real.sqrt (havA lat1 lon1 lat2 lon2) ≤ Real.sqrt ((2 / 10 ^ 6) ^ 2) :=
      Real.sqrt_le_sqrt hA
    _ = 2 / 10 ^ 6 := Real.sqrt_sq (by norm_num)
  have hxge : (9 : ℝ) / 10 ≤ Real.sqrt (1 - havA lat1 lon1 lat2 lon2) := by
    rw [Real.le_sqrt (by norm_num) (by nlinarith)]
    nlinarith
  have ht : Real.sqrt (havA lat1 lon1 lat2 lon2) /
      Real.sqrt (1 - havA lat1 lon1 lat2 lon2) ≤ (2 / 10 ^ 6) / ((9 : ℝ) / 10) := by
    gcongr
  have harc : Real.arctan (Real.sqrt (havA lat1 lon1 lat2 lon2) /
      Real.sqrt (1 - havA lat1 lon1 lat2 lon2)) ≤ Real.sqrt (havA lat1 lon1 lat2 lon2) /
      Real.sqrt (1 - havA lat1 lon1 lat2 lon2) :=
    arctan_le_self (div_nonneg (Real.sqrt_nonneg _) (Real.sqrt_nonneg _))
  rw [key, atan2, if_pos hxpos]
  nlinarith [harc, ht]

lemma haversine_gt_quarter (lat1 lon1 lat2 lon2 : ℝ)
    (h1 : ((6 : ℝ) / 10 ^ 5) ^ 2 ≤ havA lat1 lon1 lat2 lon2)
    (h2 : havA lat1 lon1 lat2 lon2 ≤ 1 / 2) :
    0.25 < haversineDistance lat1 lon1 lat2 lon2 := by
  have h0 : (0 : ℝ) ≤ havA lat1 lon1 lat2 lon2 := le_trans (by positivity) h1
  have key : haversineDistance lat1 lon1 lat2 lon2 =
      6371 * (2 * atan2 (Real.sqrt (havA lat1 lon1 lat2 lon2))
        (Real.sqrt (1 - havA lat1 lon1 lat2 lon2))) := rfl
  have hxpos : 0 < Real.sqrt (1 - havA lat1 lon1 lat2 lon2) := by
    rw [Real.sqrt_pos]; linarith
  have hxle : Real.sqrt (1 - havA lat1 lon1 lat2 lon2) ≤ 1 := by
    calc Real.sqrt (1 - havA lat1 lon1 lat2 lon2) ≤ Real.sqrt 1 :=
      Real.sqrt_le_sqrt (by linarith)
    _ = 1 := Real.sqrt_one
  have hyge : (6 : ℝ) / 10 ^ 5 ≤ Real.sqrt (havA lat1 lon1 lat2 lon2) := by
    calc (6 : ℝ) / 10 ^ 5 = Real.sqrt (((6 : ℝ) / 10 ^ 5) ^ 2) :=
      (Real.sqrt_sq (by norm_num)).symm
    _ ≤ Real.sqrt (havA lat1 lon1 lat2 lon2) := Real.sqrt_le_sqrt h1
  have htge : (6 : ℝ) / 10 ^ 5 ≤ Real.sqrt (havA lat1 lon1 lat2 lon2) /
      Real.sqrt (1 - havA lat1 lon1 lat2 lon2) := by
    calc (6 : ℝ) / 10 ^ 5 ≤ Real.sqrt (havA lat1 lon1 lat2 lon2) := hyge
    _ = Real.sqrt (havA lat1 lon1 lat2 lon2) / 1 := (div_one _).symm
    _ ≤ Real.sqrt (havA lat1 lon1 lat2 lon2) /
        Real.sqrt (1 - havA lat1 lon1 lat2 lon2) := by
      gcongr
  have harc1 : Real.arctan ((6 : ℝ) / 10 ^ 5) ≤ Real.arctan (Real.sqrt (havA lat1 lon1 lat2 lon2) /
      Real.sqrt (1 - havA lat1 lon1 lat2 lon2)) := Real.arctan_strictMono.monotone htge
  have harc2 : ((6 : ℝ) / 10 ^ 5) / (3 / 2) ≤ Real.arctan ((6 : ℝ) / 10 ^ 5) :=
    le_arctan_two_thirds (by norm_num) (by norm_num)
  rw [key, atan2, if_pos hxpos]
  nlinarith [harc1, harc2]

/-! ### C4: the concrete worked example from the specification -/

def candIncluded : Crime :=
  { category := "burglary".data, month := monthIdx 2024 6,
    location := some { latitude := "53.5230".data, longitude := "-1.1286".data, street := none } }

def candFar : Crime :=
  { category := "burglary".data, month := monthIdx 2024 6,
    location := some { latitude := "53.5300".data, longitude := "-1.1400".data, street := none } }

def candOld : Crime :=
  { category := "burglary".data, month := monthIdx 2024 1,
    location := some { latitude := "53.5230".data, longitude := "-1.1286".data, street := none } }

lemma sin_latdiff_far : (6 : ℝ) / 10 ^ 5 ≤ Real.sin ((72 / 10 ^ 4) * Real.pi / 180 / 2) := by
  have hπ1 : (3.141592 : ℝ) < Real.pi := Real.pi_gt_d6
  have hπ2 : Real.pi < 3.141593 := Real.pi_lt_d6
  have hπ0 := Real.pi_pos
  set x := (72 / 10 ^ 4 : ℝ) * Real.pi / 180 / 2 with hx
  have hx0 : 0 < x := by rw [hx]; positivity
  have hxle : x ≤ 1 := by rw [hx]; nlinarith
  have h := Real.sin_gt_sub_cube hx0 hxle
  have hxl : (62831 : ℝ) / 10 ^ 9 ≤ x := by rw [hx]; nlinarith
  have hxu : x ≤ (62832 : ℝ) / 10 ^ 9 := by rw [hx]; nlinarith
  have hcube : x ^ 3 ≤ ((62832 : ℝ) / 10 ^ 9) ^ 3 := by gcongr
  nlinarith [h, hcube, hxl]

lemma abs_refLat_le : |decToReal refLatDec| ≤ 60 := by
  rw [abs_le]
  constructor <;> norm_num [decToReal, refLatDec]

lemma cand_pred_included :
    crimeNearbyPred (decToReal refLatDec) (decToReal refLngDec) (monthIdx 2024 5)
      candIncluded := by
  have hco : coordsOf candIncluded.location =
      some (⟨535230, 4⟩, ⟨-11286, 4⟩) := by decide
  unfold crimeNearbyPred
  rw [hco]
  refine ⟨?_, by decide, by decide⟩
  apply haversine_le_quarter
  · apply havA_nonneg
    · exact cos_deg_pos abs_refLat_le
    · apply cos_deg_pos
      rw [abs_le]
      constructor <;> norm_num [decToReal]
  · refine le_trans (havA_le_sq_sum _ _ _ _) ?_
    have hd1 : decToReal (⟨535230, 4⟩ : DecNum) - decToReal refLatDec = 2 / 10 ^ 4 := by
      norm_num [decToReal, refLatDec]
    have hd2 : decToReal (⟨-11286, 4⟩ : DecNum) - decToReal refLngDec = -(1 / 10 ^ 4) := by
      norm_num [decToReal, refLngDec]
    rw [hd1, hd2]
    have hππ : Real.pi ^ 2 < 10 := by
      nlinarith [Real.pi_lt_d2, Real.pi_gt_three]
    nlinarith [hππ, Real.pi_pos]

lemma cand_pred_far :
    ¬ crimeNearbyPred (decToReal refLatDec) (decToReal refLngDec) (monthIdx 2024 5)
      candFar := by
  have hco : coordsOf candFar.location = some (⟨535300, 4⟩, ⟨-11400, 4⟩) := by decide
  unfold crimeNearbyPred
  rw [hco]
  rintro ⟨hdist, -⟩
  have hc2 : 0 < Real.cos (decToReal (⟨535300, 4⟩ : DecNum) * Real.pi / 180) := by
    apply cos_deg_pos
    rw [abs_le]
    constructor <;> norm_num [decToReal]
  have hgt : (0.25 : ℝ) < haversineDistance (decToReal refLatDec) (decToReal refLngDec)
      (decToReal ⟨535300, 4⟩) (decToReal ⟨-11400, 4⟩) := by
    apply haversine_gt_quarter
    · refine le_trans ?_
        (havA_ge_latpart _ _ _ _ (cos_deg_pos abs_refLat_le) hc2)
      have hd1 : decToReal (⟨535300, 4⟩ : DecNum) - decToReal refLatDec = 72 / 10 ^ 4 := by
        norm_num [decToReal, refLatDec]
      rw [hd1]
      nlinarith [sin_latdiff_far]
    · refine le_trans (havA_le_sq_sum _ _ _ _) ?_
      have hd1 : decToReal (⟨535300, 4⟩ : DecNum) - decToReal refLatDec = 72 / 10 ^ 4 := by
        norm_num [decToReal, refLatDec]
      have hd2 : decToReal (⟨-11400, 4⟩ : DecNum) - decToReal refLngDec = -(115 / 10 ^ 4) := by
        norm_num [decToReal, refLngDec]
      rw [hd1, hd2]
      have hππ : Real.pi ^ 2 < 10 := by
        nlinarith [Real.pi_lt_d2, Real.pi_gt_three]
      nlinarith [hππ, Real.pi_pos]
  exact absurd hdist (not_le.mpr hgt)

lemma cand_pred_old :
    ¬ crimeNearbyPred (decToReal refLatDec) (decToReal refLngDec) (monthIdx 2024 5)
      candOld := by
  have hco : coordsOf candOld.location = some (⟨535230, 4⟩, ⟨-11286, 4⟩) := by decide
  unfold crimeNearbyPred
  rw [hco]
  rintro ⟨-, hw, -⟩
  exact absurd hw (by decide)

/-- C4: with reference point (53.5228, -1.1285) and month 2024-05, radius
0.25 km and a ±1 month window, the filter keeps the candidate at
(53.5230, -1.1286, 2024-06), drops the one at (53.5300, -1.1400, 2024-06)
because its distance exceeds the radius, and drops the one at
(53.5230, -1.1286, 2024-01) because it is outside the window. -/
theorem proximity_filter_concrete_example :
    nearbyCrimesFilter (decToReal refLatDec) (decToReal refLngDec) (monthIdx 2024 5)
      [candIncluded, candFar, candOld] = [candIncluded] := by
  have eA : @decide (crimeNearbyPred (decToReal refLatDec) (decToReal refLngDec)
      (monthIdx 2024 5) candIncluded) (Classical.propDecidable _) = true :=
    @decide_eq_true _ (Classical.propDecidable _) cand_pred_included
  have eB : @decide (crimeNearbyPred (decToReal refLatDec) (decToReal refLngDec)
      (monthIdx 2024 5) candFar) (Classical.propDecidable _) = false :=
    @decide_eq_false _ (Classical.propDecidable _) cand_pred_far
  have eC : @decide (crimeNearbyPred (decToReal refLatDec) (decToReal refLngDec)
      (monthIdx 2024 5) candOld) (Classical.propDecidable _) = false :=
    @decide_eq_false _ (Classical.propDecidable _) cand_pred_old
  simp only [nearbyCrimesFilter, List.filter, eA, eB, eC]

/-! ### C6: parse failures are surfaced inline by the caller -/

/-- C6: when the (fence-stripped) response is not valid JSON,
`parseJsonResponse` throws exactly "Failed to parse AI response as JSON.",
and `handleAIFeature` surfaces that message as the inline modal content
(loading cleared, requested modal open) with its one awaited `apiCall`; when
the response is valid JSON the parsed value is returned and nothing is
thrown. -/
theorem parse_failure_surfaced_inline (s sGood : List Char) (v : Json) (k : ModalKey)
    (onSuccess : Json → Content) (st : ModalFull)
    (hbad : jsonParse (jsonStrOf s) = none)
    (hgood : jsonParse (jsonStrOf sGood) = some v) :
    parseJsonResponse s = Except.error parseFailMsg ∧
    (handleAIFeature k (parseJsonResponse s) onSuccess st).content =
      Content.errorBox parseFailMsg ∧
    (handleAIFeature k (parseJsonResponse s) onSuccess st).isLoading = false ∧
    (handleAIFeature k (parseJsonResponse s) onSuccess st).modal = openedModal k ∧
    parseJsonResponse sGood = Except.ok v := by
  have h1 : parseJsonResponse s = Except.error parseFailMsg := by
    unfold parseJsonResponse
    rw [hbad]
  have h2 : parseJsonResponse sGood = Except.ok v := by
    unfold parseJsonResponse
    rw [hgood]
  rw [h1, h2]
  exact ⟨rfl, rfl, rfl, rfl, rfl⟩

/-- Witness for C6: a non-JSON response fails with the fixed message and is
shown in the error box; a small array parses. -/
theorem parse_failure_surfaced_inline_witness :
    parseJsonResponse "notjson".data = Except.error parseFailMsg ∧
    (handleAIFeature .insights (parseJsonResponse "notjson".data) (fun _ => Content.text [])
      initialModalState).content = Content.errorBox parseFailMsg ∧
    (handleAIFeature .insights (parseJsonResponse "notjson".data) (fun _ => Content.text [])
      initialModalState).isLoading = false ∧
    (handleAIFeature .insights (parseJsonResponse "notjson".data) (fun _ => Content.text [])
      initialModalState).modal = openedModal .insights ∧
    parseJsonResponse "[true]".data = Except.ok (Json.arr [Json.bool true]) :=
  parse_failure_surfaced_inline "notjson".data "[true]".data (Json.arr [Json.bool true])
    .insights (fun _ => Content.text []) initialModalState rfl rfl

/-! ### List lemmas for the fence-stripping computation -/

lemma dropWhile_append_all {p : Char → Bool} {l₁ l₂ : List Char}
    (h : ∀ c ∈ l₁, p c = true) :
    (l₁ ++ l₂).dropWhile p = l₂.dropWhile p := by
  induction l₁ with
  | nil => rfl
  | cons a t ih =>
    rw [List.cons_append, List.dropWhile_cons_of_pos (h a (List.mem_cons_self a t))]
    exact ih fun c hc => h c (List.mem_cons_of_mem a hc)

lemma dropWhile_head_false {p : Char → Bool} {l : List Char} {a : Char} {l' : List Char}
    (h : l.dropWhile p = a :: l') : p a = false := by
  induction l with
  | nil => cases h
  | cons b t ih =>
    cases hb : p b with
    | true => rw [List.dropWhile_cons_of_pos hb] at h; exact ih h
    | false =>
      rw [List.dropWhile_cons_of_neg (by simp [hb])] at h
      injection h with h1 _
      rw [← h1]
      exact hb

lemma rtrimJs_rdrop (l : List Char) : rtrimJs l = List.rdropWhile isJsWs l := rfl

lemma rtrimJs_prefix (l : List Char) : rtrimJs l <+: l := by
  rw [rtrimJs_rdrop]
  exact List.rdropWhile_prefix isJsWs l

lemma rtrimJs_append_nl (l : List Char) : rtrimJs (l ++ ['\n']) = rtrimJs l := by
  rw [rtrimJs_rdrop, rtrimJs_rdrop]
  exact List.rdropWhile_concat_pos isJsWs l '\n' (by decide)

lemma ltrim_rtrim_ltrim (l : List Char) :
    ltrimJs (rtrimJs (ltrimJs l)) = rtrimJs (ltrimJs l) := by
  cases h : rtrimJs (ltrimJs l) with
  | nil => rfl
  | cons c r =>
    obtain ⟨t, ht⟩ := rtrimJs_prefix (ltrimJs l)
    rw [h, List.cons_append] at ht
    have hc : isJsWs c = false := dropWhile_head_false (l := l) ht.symm
    exact List.dropWhile_cons_of_neg (by simp [hc])

lemma jsTrim_idem (l : List Char) : jsTrim (jsTrim l) = jsTrim l := by
  unfold jsTrim
  rw [ltrim_rtrim_ltrim]
  simp only [rtrimJs_rdrop]
  exact List.rdropWhile_idempotent isJsWs (ltrimJs l)

def btChar : Char := Char.ofNat 96

lemma fenceWrap_decomp (tag s : List Char) :
    fenceWrap tag s =
      (btChar :: btChar :: btChar :: (tag ++ '\n' :: (s ++ ['\n']))) ++
        [btChar, btChar, btChar] := by
  show "```".data ++ tag ++ '\n' :: s ++ "\n```".data = _
  rw [show "```".data = [btChar, btChar, btChar] from rfl,
    show "\n```".data = '\n' :: [btChar, btChar, btChar] from rfl]
  simp

lemma jsTrim_fenceWrap (tag s : List Char) :
    jsTrim (fenceWrap tag s) = fenceWrap tag s := by
  unfold jsTrim
  have hl : ltrimJs (fenceWrap tag s) = fenceWrap tag s := by
    rw [fenceWrap_decomp, List.cons_append]
    exact List.dropWhile_cons_of_neg (by decide)
  rw [hl, fenceWrap_decomp,
    show (btChar :: btChar :: btChar :: (tag ++ '\n' :: (s ++ ['\n']))) ++
        [btChar, btChar, btChar] =
      ((btChar :: btChar :: btChar :: (tag ++ '\n' :: (s ++ ['\n']))) ++
        [btChar, btChar]) ++ [btChar] from by simp,
    rtrimJs_rdrop]
  exact List.rdropWhile_concat_neg isJsWs _ btChar (by decide)

lemma fenceContent_fenceWrap (tag s : List Char)
    (htag : ∀ c ∈ tag, isWordChar c = true) (hne : jsTrim s ≠ []) :
    fenceContent (fenceWrap tag s) = some (jsTrim s) := by
  have hlen : (fenceWrap tag s).length = tag.length + s.length + 8 := by
    rw [fenceWrap_decomp]; simp; omega
  have htake : (fenceWrap tag s).take 3 = "```".data := by
    rw [fenceWrap_decomp]; rfl
  have hdrop3 : (fenceWrap tag s).drop ((fenceWrap tag s).length - 3) = "```".data := by
    rw [fenceWrap_decomp]
    rw [show ((btChar :: btChar :: btChar :: (tag ++ '\n' :: (s ++ ['\n']))) ++
        [btChar, btChar, btChar]).length - 3 =
        (btChar :: btChar :: btChar :: (tag ++ '\n' :: (s ++ ['\n']))).length from by
      simp; omega]
    rw [List.drop_left]
    rfl
  have hu : ((fenceWrap tag s).drop 3).take ((fenceWrap tag s).length - 6) =
      tag ++ '\n' :: (s ++ ['\n']) := by
    rw [fenceWrap_decomp]
    rw [show List.drop 3 ((btChar :: btChar :: btChar :: (tag ++ '\n' :: (s ++ ['\n']))) ++
        [btChar, btChar, btChar]) = (tag ++ '\n' :: (s ++ ['\n'])) ++ [btChar, btChar, btChar]
        from rfl]
    rw [show ((btChar :: btChar :: btChar :: (tag ++ '\n' :: (s ++ ['\n']))) ++
        [btChar, btChar, btChar]).length - 6 = (tag ++ '\n' :: (s ++ ['\n'])).length from by
      simp; omega]
    exact List.take_left _ _
  have hm : rtrimJs (((tag ++ '\n' :: (s ++ ['\n'])).dropWhile isWordChar).dropWhile isJsWs) =
      jsTrim s := by
    rw [dropWhile_append_all htag]
    rw [List.dropWhile_cons_of_neg (by decide)]
    rw [List.dropWhile_cons_of_pos (by decide)]
    obtain ⟨c, cr, hcore, hc⟩ : ∃ c cr, ltrimJs s = c :: cr ∧ isJsWs c = false := by
      cases h : ltrimJs s with
      | nil =>
        exfalso
        apply hne
        show rtrimJs (ltrimJs s) = []
        rw [h]
        rfl
      | cons c cr => exact ⟨c, cr, rfl, dropWhile_head_false (l := s) h⟩
    have hsplit : s ++ ['\n'] = s.takeWhile isJsWs ++ (ltrimJs s ++ ['\n']) := by
      simp only [ltrimJs]
      rw [← List.append_assoc, List.takeWhile_append_dropWhile]
    rw [hsplit, dropWhile_append_all (fun x hx => List.mem_takeWhile_imp hx)]
    rw [hcore, List.cons_append, List.dropWhile_cons_of_neg (by simp [hc])]
    rw [← List.cons_append, ← hcore, rtrimJs_append_nl]
    rfl
  have hcond : 6 ≤ (fenceWrap tag s).length ∧ (fenceWrap tag s).take 3 = "```".data ∧
      (fenceWrap tag s).drop ((fenceWrap tag s).length - 3) = "```".data :=
    ⟨by rw [hlen]; omega, htake, hdrop3⟩
  unfold fenceContent
  rw [if_pos hcond]
  simp only [hu]
  rw [hm]
  rw [if_neg hne]

lemma jsonStrOf_fenceWrap (tag s : List Char)
    (htag : ∀ c ∈ tag, isWordChar c = true) (hne : jsTrim s ≠ []) :
    jsonStrOf (fenceWrap tag s) = jsTrim s := by
  simp only [jsonStrOf]
  rw [jsTrim_fenceWrap, fenceContent_fenceWrap tag s htag hne]
  exact jsTrim_idem s

lemma fenceContent_eq_none_of_head {t : List Char} {c : Char} {r : List Char}
    (h : t = c :: r) (hc : c ≠ btChar) : fenceContent t = none := by
  unfold fenceContent
  rw [if_neg]
  rintro ⟨-, h2, -⟩
  rw [h] at h2
  rw [show "```".data = [btChar, btChar, btChar] from rfl] at h2
  have h3 : (c :: r).take 3 = c :: r.take 2 := rfl
  rw [h3] at h2
  injection h2 with h4 _
  exact hc h4

lemma jsonStrOf_of_head {s : List Char} {c : Char} {r : List Char}
    (h : jsTrim s = c :: r) (hc : c ≠ btChar) : jsonStrOf s = jsTrim s := by
  simp only [jsonStrOf]
  rw [fenceContent_eq_none_of_head h hc]

lemma jsTrim_head_not_ws {l : List Char} {c : Char} {r : List Char}
    (h : jsTrim l = c :: r) : isJsWs c = false := by
  obtain ⟨t, ht⟩ := rtrimJs_prefix (ltrimJs l)
  rw [show jsTrim l = rtrimJs (ltrimJs l) from rfl] at h
  rw [h, List.cons_append] at ht
  exact dropWhile_head_false (l := l) ht.symm

lemma isJsonWs_imp (c : Char) (h : isJsonWs c = true) : isJsWs c = true := by
  simp only [isJsonWs, Bool.or_eq_true, decide_eq_true_eq] at h
  rcases h with ((h | h) | h) | h <;> subst h <;> decide

lemma parseValue_arr_head {n : Nat} {c : Char} {r : List Char} {v : List Json}
    {rest : List Char}
    (h : parseValue (n + 1) (c :: r) = some (Json.arr v, rest)) : c = '[' := by
  simp only [parseValue] at h
  by_cases h1 : c = '['
  · exact h1
  rw [if_neg h1] at h
  exfalso
  by_cases h2 : c = '{'
  · rw [if_pos h2] at h
    obtain ⟨p, -, hp⟩ := Option.map_eq_some'.mp h
    simp at hp
  rw [if_neg h2] at h
  by_cases h3 : c = '"'
  · rw [if_pos h3] at h
    obtain ⟨p, -, hp⟩ := Option.map_eq_some'.mp h
    simp at hp
  rw [if_neg h3] at h
  by_cases h4 : c = 't'
  · rw [if_pos h4] at h
    split at h <;> simp_all
  rw [if_neg h4] at h
  by_cases h5 : c = 'f'
  · rw [if_pos h5] at h
    split at h <;> simp_all
  rw [if_neg h5] at h
  by_cases h6 : c = 'n'
  · rw [if_pos h6] at h
    split at h <;> simp_all
  rw [if_neg h6] at h
  by_cases h7 : c = '-' ∨ c.isDigit
  · rw [if_pos h7] at h
    obtain ⟨p, -, hp⟩ := Option.map_eq_some'.mp h
    simp at hp
  · rw [if_neg h7] at h
    cases h

lemma jsonParse_arr_head {t : List Char} {xs : List Json}
    (hhead : t.dropWhile isJsonWs = t)
    (h : jsonParse t = some (Json.arr xs)) : ∃ r, t = '[' :: r := by
  unfold jsonParse at h
  rw [hhead] at h
  cases ht : t with
  | nil =>
    rw [ht] at h
    simp [parseValue] at h
  | cons c r =>
    rw [ht] at h
    rcases hpv : parseValue ((c :: r).length + 1) (c :: r) with _ | ⟨v, rest⟩
    · rw [hpv] at h
      cases h
    · rw [hpv] at h
      simp only [] at h
      split at h
      · injection h with h1
        subst h1
        exact ⟨r, by rw [parseValue_arr_head hpv]⟩
      · cases h

/-! ### C5: fence-wrapped JSON parses identically to the bare array -/

/-- C5: for every well-formed JSON array text (formalised: its trimmed form
parses as a JSON array), wrapping it in a markdown code fence, with or
without a `\w*` language tag, leaves `parseJsonResponse` unchanged, and the
parsed result has exactly the elements of the array. -/
theorem parse_json_response_fence_roundtrip (s tag : List Char) (xs : List Json)
    (htag : ∀ c ∈ tag, isWordChar c = true)
    (hs : jsonParse (jsTrim s) = some (Json.arr xs)) :
    parseJsonResponse (fenceWrap tag s) = parseJsonResponse s ∧
    parseJsonResponse s = Except.ok (Json.arr xs) ∧
    ∃ ys : List Json, parseJsonResponse (fenceWrap tag s) = Except.ok (Json.arr ys) ∧
      ys.length = xs.length := by
  have hne : jsTrim s ≠ [] := by
    intro h
    rw [h] at hs
    simp [jsonParse, parseValue] at hs
  have hhead : (jsTrim s).dropWhile isJsonWs = jsTrim s := by
    cases h : jsTrim s with
    | nil => rfl
    | cons c r =>
      have hc : isJsWs c = false := jsTrim_head_not_ws h
      refine List.dropWhile_cons_of_neg ?_
      intro hcc
      simp [isJsonWs_imp c hcc] at hc
  obtain ⟨r, hr⟩ := jsonParse_arr_head hhead hs
  have h1 : jsonStrOf s = jsTrim s := jsonStrOf_of_head hr (by decide)
  have h2 : jsonStrOf (fenceWrap tag s) = jsTrim s := jsonStrOf_fenceWrap tag s htag hne
  have hps : parseJsonResponse s = Except.ok (Json.arr xs) := by
    unfold parseJsonResponse
    rw [h1, hs]
  have hpw : parseJsonResponse (fenceWrap tag s) = Except.ok (Json.arr xs) := by
    unfold parseJsonResponse
    rw [h2, hs]
  exact ⟨by rw [hps, hpw], hps, xs, hpw, rfl⟩

/-- Witness for C5 at a concrete three-element array and the `json` tag. -/
theorem parse_json_response_fence_roundtrip_witness :
    parseJsonResponse (fenceWrap "json".data "[true, false, null]".data) =
      parseJsonResponse "[true, false, null]".data ∧
    parseJsonResponse "[true, false, null]".data =
      Except.ok (Json.arr [Json.bool true, Json.bool false, Json.null]) ∧
    ∃ ys : List Json,
      parseJsonResponse (fenceWrap "json".data "[true, false, null]".data) =
        Except.ok (Json.arr ys) ∧
      ys.length = [Json.bool true, Json.bool false, Json.null].length :=
  parse_json_response_fence_roundtrip "[true, false, null]".data "json".data
    [Json.bool true, Json.bool false, Json.null] (by decide) rfl
